import Mathlib

/-!
Shallow embedding of the repository MrRiahi/Convolutional-Neural-Networks.

The repository wires keras layers into CNN architectures and runs TFLite
inference.  The code of this repository is declarative graph wiring, so the
faithful embedding works at the level the code itself operates on:

* shape semantics of each keras layer the source calls (Conv2D, MaxPooling2D,
  AveragePooling2D, Flatten, Dense, Dropout, concatenate), with keras's
  documented output-shape rules ("same" padding: ceil(size/stride); "valid"
  padding: (size - kernel)/stride + 1, failing when the kernel exceeds the
  input, exactly where keras raises a negative-dimension error at graph
  construction);
* the graph builders of src/utils/GoogLeNet.py line by line;
* the dispatch, compile recipes and error paths of src/utils/model.py;
* the label-selection line of src/infer_tflite.py over a numpy-style
  nested-array model.

Fallible graph construction is Option/Except; machine floats that only ever
hold exact decimal literals (learning rates, loss weights, probabilities
compared by argmax) are modelled as rationals.
-/

namespace CNN

/-- A rank-4 tensor shape (batch, height, width, channels), the shape of every
feature map flowing through the builders in src/utils/GoogLeNet.py.  keras
keeps the batch dimension symbolic; here a concrete batch size is carried so
that axis-0 concatenation is representable. -/
structure Shape where
  n : Nat
  h : Nat
  w : Nat
  c : Nat
deriving DecidableEq, Repr

/-- Output spatial extent of a stride-s layer with "same" padding:
ceil(h / s), keras's documented rule. -/
def convSameH (s h : Nat) : Nat := (h + s - 1) / s

/-- Shape semantics of keras Conv2D with padding="same": spatial dims become
ceil(size/stride), channel count becomes the filter count.  The kernel size
does not affect the output shape under "same" padding. -/
def conv2DSame (filters : Nat) (_kernel_size stride : Nat × Nat) (X : Shape) : Shape :=
  Shape.mk X.n (convSameH stride.1 X.h) (convSameH stride.2 X.w) filters

/-- Shape semantics of keras Conv2D with padding="valid": each spatial dim
becomes (size - kernel)/stride + 1, and keras rejects the graph (negative
dimension size) when the kernel exceeds the input. -/
def conv2DValid (filters : Nat) (kernel_size stride : Nat × Nat) (X : Shape) : Option Shape :=
  if kernel_size.1 ≤ X.h ∧ kernel_size.2 ≤ X.w then
    some (Shape.mk X.n ((X.h - kernel_size.1) / stride.1 + 1)
      ((X.w - kernel_size.2) / stride.2 + 1) filters)
  else
    none

/-- Shape semantics of keras MaxPooling2D with padding="same": spatial dims
become ceil(size/stride), channels unchanged. -/
def maxPool2DSame (_pool_size stride : Nat × Nat) (X : Shape) : Shape :=
  Shape.mk X.n (convSameH stride.1 X.h) (convSameH stride.2 X.w) X.c

/-- Shape semantics of keras AveragePooling2D with padding="valid": like a
valid convolution but channel-preserving; fails when the pool window exceeds
the input. -/
def avgPool2DValid (pool_size stride : Nat × Nat) (X : Shape) : Option Shape :=
  if pool_size.1 ≤ X.h ∧ pool_size.2 ≤ X.w then
    some (Shape.mk X.n ((X.h - pool_size.1) / stride.1 + 1)
      ((X.w - pool_size.2) / stride.2 + 1) X.c)
  else
    none

/-- Do two rank-4 shapes agree on every dimension other than the given
concatenation axis (0 = batch, 1 = height, 2 = width, 3 = channels)?  This is
keras's compatibility requirement for the concatenate layer. -/
def Shape.matchExcept (axis : Nat) (a b : Shape) : Bool :=
  (axis == 0 || a.n == b.n) && (axis == 1 || a.h == b.h) &&
    (axis == 2 || a.w == b.w) && (axis == 3 || a.c == b.c)

/-- Add shape b's extent along the given axis to shape a (the accumulation
step of concatenation along that axis). -/
def Shape.sumAxis (axis : Nat) (a b : Shape) : Shape :=
  match axis with
  | 0 => Shape.mk (a.n + b.n) a.h a.w a.c
  | 1 => Shape.mk a.n (a.h + b.h) a.w a.c
  | 2 => Shape.mk a.n a.h (a.w + b.w) a.c
  | _ => Shape.mk a.n a.h a.w (a.c + b.c)

/-- Shape semantics of keras concatenate along a given axis: all inputs must
agree on every other dimension (otherwise keras raises at graph construction),
and the result sums the extents along the concatenation axis.  keras's default
axis=-1 normalises to axis 3 for rank-4 tensors. -/
def concatKeras (axis : Nat) : List Shape → Option Shape
  | [] => none
  | x :: rest =>
    if rest.all (fun y => Shape.matchExcept axis x y) then
      some (rest.foldl (Shape.sumAxis axis) x)
    else
      none

/-- GoogLeNet._naive_inception_block (src/utils/GoogLeNet.py lines 13-42),
shape level.  Three valid-padding convolutions (default kernel sizes
(1,1), (3,3), (5,5)) and a same-padding max-pooling branch, all applied to the
same input, concatenated with axis=0 — the batch axis, as written in the
source (`concatenate(inputs=[...], axis=0)`). -/
def naiveInceptionBlock (X : Shape) (filters : Nat × Nat × Nat)
    (kernel_size : (Nat × Nat) × (Nat × Nat) × (Nat × Nat)) (pool_size : Nat × Nat) :
    Option Shape := do
  let X_1by1 ← conv2DValid filters.1 kernel_size.1 (1, 1) X
  let X_3by3 ← conv2DValid filters.2.1 kernel_size.2.1 (1, 1) X
  let X_5by5 ← conv2DValid filters.2.2 kernel_size.2.2 (1, 1) X
  let X_max_pooling := maxPool2DSame pool_size (1, 1) X
  concatKeras 0 [X_1by1, X_3by3, X_5by5, X_max_pooling]

/-- GoogLeNet._inception_block (src/utils/GoogLeNet.py lines 44-87), shape
level.  Same-padding 1x1/3x3/5x5 branches (the 3x3 and 5x5 preceded by 1x1
reduction convolutions), a same-padding max-pooling branch followed by a 1x1
pool-projection convolution, concatenated with keras's default axis (-1, the
channel axis for rank-4 tensors, normalised to 3). -/
def inceptionBlock (X : Shape) (filters reduced_filters : Nat × Nat × Nat)
    (kernel_size : (Nat × Nat) × (Nat × Nat) × (Nat × Nat)) (pool_size : Nat × Nat) :
    Option Shape :=
  let X_1by1 := conv2DSame filters.1 kernel_size.1 (1, 1) X
  let X_reduced_3by3 := conv2DSame reduced_filters.1 (1, 1) (1, 1) X
  let X_3by3 := conv2DSame filters.2.1 kernel_size.2.1 (1, 1) X_reduced_3by3
  let X_reduced_5by5 := conv2DSame reduced_filters.2.1 (1, 1) (1, 1) X
  let X_5by5 := conv2DSame filters.2.2 kernel_size.2.2 (1, 1) X_reduced_5by5
  let X_max_pooling := maxPool2DSame pool_size (1, 1) X
  let X_pool_proj := conv2DSame reduced_filters.2.2 (1, 1) (1, 1) X_max_pooling
  concatKeras 3 [X_1by1, X_3by3, X_5by5, X_pool_proj]

/-- One named output node of a built graph: its keras layer name and its
width (units of the final softmax Dense layer). -/
structure OutputNode where
  name : String
  units : Nat
deriving DecidableEq, Repr

/-- Flatten layer: feature count of the flattened vector. -/
def flattenUnits (X : Shape) : Nat := X.h * X.w * X.c

/-- Dense layer, shape level: the output width is the unit count regardless of
the input width. -/
def dense (units _input : Nat) : Nat := units

/-- GoogLeNet._auxiliary_classifier (src/utils/GoogLeNet.py lines 89-118),
shape level: 5x5/stride-3 valid average pooling (the only fallible step), 1x1
same convolution to 128 channels, Flatten, Dense(1024), Dropout(0.7)
(shape-preserving), and the named softmax Dense of width classes. -/
def auxiliaryClassifier (X : Shape) (classes : Nat) (output_name : String) :
    Option OutputNode := do
  let X_average_pool ← avgPool2DValid (5, 5) (3, 3) X
  let X_conv := conv2DSame 128 (1, 1) (1, 1) X_average_pool
  let X_flatten := flattenUnits X_conv
  let X_fc := dense 1024 X_flatten
  let X_dropout := X_fc
  pure (OutputNode.mk output_name (dense classes X_dropout))

/-- The data of a built keras Model that the claims are about: the shape of
its single input node and its ordered list of named output nodes. -/
structure GraphInfo where
  inputShape : Nat × Nat × Nat
  outputs : List OutputNode
deriving DecidableEq, Repr

/-- GoogLeNet.google_net (src/utils/GoogLeNet.py lines 120-202), shape level,
layer by layer in source order.  Returns the built graph's input shape and the
output nodes of Model(inputs=X_input, outputs=[output, X_aux_1, X_aux_2]), or
none where keras shape inference rejects the graph. -/
def google_net (input_shape : Nat × Nat) (classes : Nat) : Option GraphInfo := do
  let X_input := Shape.mk 1 input_shape.1 input_shape.2 3
  -- Layer 1
  let X := conv2DSame 64 (7, 7) (2, 2) X_input
  -- Layer 2
  let X := maxPool2DSame (3, 3) (2, 2) X
  -- Layer 3
  let X ← conv2DValid 64 (1, 1) (1, 1) X
  -- Layer 4
  let X := conv2DSame 192 (3, 3) (1, 1) X
  -- Layer 5
  let X := maxPool2DSame (3, 3) (2, 2) X
  -- Inception 3a
  let X ← inceptionBlock X (64, 128, 32) (96, 16, 32) ((1, 1), (3, 3), (5, 5)) (3, 3)
  -- Inception 3b
  let X ← inceptionBlock X (128, 192, 96) (128, 32, 64) ((1, 1), (3, 3), (5, 5)) (3, 3)
  -- Layer 8
  let X := maxPool2DSame (3, 3) (2, 2) X
  -- Inception 4a
  let X ← inceptionBlock X (192, 208, 48) (96, 16, 64) ((1, 1), (3, 3), (5, 5)) (3, 3)
  -- First auxiliary output
  let X_aux_1 ← auxiliaryClassifier X classes "output_aux_1"
  -- Inception 4b
  let X ← inceptionBlock X (160, 224, 64) (112, 24, 64) ((1, 1), (3, 3), (5, 5)) (3, 3)
  -- Inception 4c
  let X ← inceptionBlock X (128, 256, 64) (128, 24, 64) ((1, 1), (3, 3), (5, 5)) (3, 3)
  -- Inception 4d
  let X ← inceptionBlock X (112, 288, 64) (144, 32, 64) ((1, 1), (3, 3), (5, 5)) (3, 3)
  -- Second auxiliary output
  let X_aux_2 ← auxiliaryClassifier X classes "output_aux_2"
  -- Inception 4e
  let X ← inceptionBlock X (256, 320, 128) (160, 32, 128) ((1, 1), (3, 3), (5, 5)) (3, 3)
  -- Layer 14
  let X := maxPool2DSame (3, 3) (2, 2) X
  -- Inception 5a
  let X ← inceptionBlock X (256, 320, 128) (160, 32, 128) ((1, 1), (3, 3), (5, 5)) (3, 3)
  -- Inception 5b
  let X ← inceptionBlock X (384, 384, 128) (192, 48, 128) ((1, 1), (3, 3), (5, 5)) (3, 3)
  -- Layer 17
  let X ← avgPool2DValid (7, 7) (1, 1) X
  let X := flattenUnits X
  -- Layer 18 (Dropout rate 0.4, shape-preserving)
  let X := X
  -- Layer 19
  let X := dense 1000 X
  -- Layer 20
  let output := OutputNode.mk "output" (dense classes X)
  pure (GraphInfo.mk (input_shape.1, input_shape.2, 3) [output, X_aux_1, X_aux_2])

/-! ### Config constants (utils/config.py is not under src/) -/

/-- Modelled from the spec: utils/config.py is not under src/.  Per the spec
(section 6) Config is a static mapping from a model name to its declared input
resolution (H, W).  The concrete numbers are not recoverable from src/; no
claim depends on the specific values, only on get_model and load_model reading
the same constant per model name, so a representative (224, 224) is used. -/
def RESNET50_INPUT_SIZE : Nat × Nat := (224, 224)

/-- Modelled from the spec: Config input resolution for MobileNetV1 (see
RESNET50_INPUT_SIZE for the modelling note). -/
def MOBILENET_V1_INPUT_SIZE : Nat × Nat := (224, 224)

/-- Modelled from the spec: Config input resolution for MobileNetV2 (see
RESNET50_INPUT_SIZE for the modelling note). -/
def MOBILENET_V2_INPUT_SIZE : Nat × Nat := (224, 224)

/-- Modelled from the spec: Config input resolution for GoogLeNet.  (224, 224)
is the published GoogLeNet resolution the spec's block table refers to, and is
large enough for google_net's shape inference to succeed. -/
def GOOGLE_NET_INPUT_SIZE : Nat × Nat := (224, 224)

/-- Modelled from the spec: Config input resolution for VGG16 (see
RESNET50_INPUT_SIZE for the modelling note). -/
def VGG16_NET_INPUT_SIZE : Nat × Nat := (224, 224)

/-- Modelled from the spec: Config input resolution for VGG13 (see
RESNET50_INPUT_SIZE for the modelling note). -/
def VGG13_NET_INPUT_SIZE : Nat × Nat := (224, 224)

/-- Modelled from the spec: Config input resolution for VGG11 (see
RESNET50_INPUT_SIZE for the modelling note). -/
def VGG11_NET_INPUT_SIZE : Nat × Nat := (224, 224)

/-! ### utils/model.py -/

/-- Modelled from the spec: the assembler sources utils/ResNet.py,
utils/VGG.py and utils/MobileNet.py are not under src/.  Per the spec
(sections 2 and 8) each of these is a single-output architecture whose
assembler returns a graph with one input node of the Config-declared
(H, W, 3) shape and exactly one softmax output node of width classes. -/
def singleOutputNet (input_shape : Nat × Nat) (classes : Nat) : GraphInfo :=
  GraphInfo.mk (input_shape.1, input_shape.2, 3) [OutputNode.mk "output" classes]

/-- A loss function identifier passed to model.compile. -/
inductive Loss where
  | categoricalCrossentropy
deriving DecidableEq, Repr

/-- The loss argument of model.compile: a single loss, or a dict from output
name to loss. -/
inductive LossSpec where
  | single (l : Loss)
  | perOutput (ls : List (String × Loss))
deriving DecidableEq, Repr

/-- The optimizer argument of model.compile: either a keras string alias
(such as adam or sgd) or an SGD instance with explicit learning rate,
momentum and nesterov flag. -/
inductive Optimizer where
  | named (s : String)
  | sgd (learning_rate momentum : ℚ) (nesterov : Bool)
deriving DecidableEq, Repr

/-- The metrics argument of model.compile: a flat list, or a dict from output
name to metric. -/
inductive MetricsSpec where
  | flat (ms : List String)
  | perOutput (ms : List (String × String))
deriving DecidableEq, Repr

/-- The arguments the source passes to model.compile. -/
structure CompileConfig where
  loss : LossSpec
  optimizer : Optimizer
  lossWeights : Option (List ℚ)
  metrics : MetricsSpec
deriving DecidableEq, Repr

/-- A built and compiled model: the graph plus its compile configuration. -/
structure BuiltModel where
  graph : GraphInfo
  compileCfg : CompileConfig
deriving DecidableEq, Repr

/-- The model-name values the if/elif chains of get_model and load_model
(src/utils/model.py) recognise, in source order. -/
def supportedModelTypes : List String :=
  ["ResNet50", "MobileNetV1", "MobileNetV2", "GoogLeNet", "VGG16", "VGG13", "VGG11"]

/-- get_model (src/utils/model.py lines 13-99).  The source reads the model
name from the Config global Cfg.MODEL_TYPE; that global's value is the
model_type argument here.  Each branch builds the architecture with the
Config-declared input size, compiles it with the branch's recipe, and returns
(model, input_size); the final else raises Exception, embedded as
Except.error.  In the GoogLeNet branch the source constructs an SGD optimizer
(learning_rate 0.01, momentum 0.9, nesterov False) and then rebinds the same
variable to SGD(learning_rate 0.1, momentum 0.9) before compile, mirrored here
by let-shadowing. -/
def get_model (model_type : String) (classes_numbers : Nat) :
    Except String (BuiltModel × (Nat × Nat)) :=
  if model_type = "ResNet50" then
    let input_size := RESNET50_INPUT_SIZE
    let model := singleOutputNet input_size classes_numbers
    Except.ok (BuiltModel.mk model
      (CompileConfig.mk (LossSpec.single Loss.categoricalCrossentropy)
        (Optimizer.named "adam") none (MetricsSpec.flat ["accuracy"])), input_size)
  else if model_type = "MobileNetV1" then
    let input_size := MOBILENET_V1_INPUT_SIZE
    let model := singleOutputNet input_size classes_numbers
    Except.ok (BuiltModel.mk model
      (CompileConfig.mk (LossSpec.single Loss.categoricalCrossentropy)
        (Optimizer.named "adam") none (MetricsSpec.flat ["accuracy"])), input_size)
  else if model_type = "MobileNetV2" then
    let input_size := MOBILENET_V2_INPUT_SIZE
    let model := singleOutputNet input_size classes_numbers
    Except.ok (BuiltModel.mk model
      (CompileConfig.mk (LossSpec.single Loss.categoricalCrossentropy)
        (Optimizer.named "sgd") none (MetricsSpec.flat ["accuracy"])), input_size)
  else if model_type = "GoogLeNet" then
    let input_size := GOOGLE_NET_INPUT_SIZE
    match google_net input_size classes_numbers with
    | none => Except.error "Negative dimension size"
    | some g =>
      let optimizer := Optimizer.sgd (1 / 100) (9 / 10) false
      let losses := LossSpec.perOutput
        [("output", Loss.categoricalCrossentropy),
         ("output_aux_1", Loss.categoricalCrossentropy),
         ("output_aux_2", Loss.categoricalCrossentropy)]
      let metrics := MetricsSpec.perOutput
        [("output", "accuracy"), ("output_aux_1", "accuracy"), ("output_aux_2", "accuracy")]
      let optimizer := Optimizer.sgd (1 / 10) (9 / 10) false
      Except.ok (BuiltModel.mk g
        (CompileConfig.mk losses optimizer (some [1, 3 / 10, 3 / 10]) metrics), input_size)
  else if model_type = "VGG16" then
    let input_size := VGG16_NET_INPUT_SIZE
    let model := singleOutputNet input_size classes_numbers
    Except.ok (BuiltModel.mk model
      (CompileConfig.mk (LossSpec.single Loss.categoricalCrossentropy)
        (Optimizer.named "adam") none (MetricsSpec.flat ["accuracy"])), input_size)
  else if model_type = "VGG13" then
    let input_size := VGG13_NET_INPUT_SIZE
    let model := singleOutputNet input_size classes_numbers
    Except.ok (BuiltModel.mk model
      (CompileConfig.mk (LossSpec.single Loss.categoricalCrossentropy)
        (Optimizer.named "adam") none (MetricsSpec.flat ["accuracy"])), input_size)
  else if model_type = "VGG11" then
    let input_size := VGG11_NET_INPUT_SIZE
    let model := singleOutputNet input_size classes_numbers
    Except.ok (BuiltModel.mk model
      (CompileConfig.mk (LossSpec.single Loss.categoricalCrossentropy)
        (Optimizer.named "adam") none (MetricsSpec.flat ["accuracy"])), input_size)
  else
    Except.error "Invalid model type!"

/-- load_model (src/utils/model.py lines 102-154).  Dispatches on the same
Config global; each branch resolves the input shape from the same Config
constant as get_model and loads the persisted artifact through the external
keras loader (opaque here, modelled as Unit); the final else raises the same
Exception.  The model_path argument is only handed to the external loader. -/
def load_model (model_type : String) (_model_path : String) :
    Except String (Unit × (Nat × Nat)) :=
  if model_type = "ResNet50" then
    Except.ok ((), RESNET50_INPUT_SIZE)
  else if model_type = "MobileNetV1" then
    Except.ok ((), MOBILENET_V1_INPUT_SIZE)
  else if model_type = "MobileNetV2" then
    Except.ok ((), MOBILENET_V2_INPUT_SIZE)
  else if model_type = "GoogLeNet" then
    Except.ok ((), GOOGLE_NET_INPUT_SIZE)
  else if model_type = "VGG16" then
    Except.ok ((), VGG16_NET_INPUT_SIZE)
  else if model_type = "VGG13" then
    Except.ok ((), VGG13_NET_INPUT_SIZE)
  else if model_type = "VGG11" then
    Except.ok ((), VGG11_NET_INPUT_SIZE)
  else
    Except.error "Invalid model type!"

/-- The Config-declared input resolution per supported model name, as the
claims refer to it ("the Config-declared input_shape"). -/
def configInputSize : String → Option (Nat × Nat)
  | "ResNet50" => some RESNET50_INPUT_SIZE
  | "MobileNetV1" => some MOBILENET_V1_INPUT_SIZE
  | "MobileNetV2" => some MOBILENET_V2_INPUT_SIZE
  | "GoogLeNet" => some GOOGLE_NET_INPUT_SIZE
  | "VGG16" => some VGG16_NET_INPUT_SIZE
  | "VGG13" => some VGG13_NET_INPUT_SIZE
  | "VGG11" => some VGG11_NET_INPUT_SIZE
  | _ => none

/-- The loss weight model.compile effectively assigns to a named output:
keras aligns a positional loss_weights list with the model's outputs in
order, so the effective mapping is the zip of the output names with the
weight list. -/
def effectiveLossWeight (bm : BuiltModel) (output_name : String) : Option ℚ :=
  match bm.compileCfg.lossWeights with
  | none => none
  | some ws => List.lookup output_name (List.zip (bm.graph.outputs.map OutputNode.name) ws)

/-! ### src/infer_tflite.py -/

/-- A numpy-style nested array of (exactly represented) numbers, the shape of
data the TFLite interpreter hands back via get_tensor. -/
inductive NpArray where
  | scalar (x : ℚ)
  | arr (elems : List NpArray)

/-- numpy integer indexing a[i] on the first axis: defined for arrays, not
for 0-d scalars. -/
def NpArray.get : NpArray → Nat → Option NpArray
  | NpArray.scalar _, _ => none
  | NpArray.arr elems, i => elems.get? i

/-- numpy ravel order: the flat list of elements of a nested array. -/
def NpArray.flatten : NpArray → List ℚ
  | NpArray.scalar x => [x]
  | NpArray.arr [] => []
  | NpArray.arr (e :: es) => e.flatten ++ (NpArray.arr es).flatten

/-- Index of the first maximum of a list (the accumulator form used to define
np.argmax below): best value, its index, and the index of the next element. -/
def argmaxAux (best : ℚ) (bestIdx idx : Nat) : List ℚ → Nat
  | [] => bestIdx
  | x :: xs => if best < x then argmaxAux x idx (idx + 1) xs else argmaxAux best bestIdx (idx + 1) xs

/-- np.argmax over a 1-d list: index of the first occurrence of the maximum;
none on an empty list (numpy raises there). -/
def argmaxList : List ℚ → Option Nat
  | [] => none
  | x :: xs => some (argmaxAux x 0 1 xs)

/-- np.argmax of a numpy array with no axis argument: argmax of the flattened
array.  In particular, on a 0-d scalar the flattened array is a singleton and
the result is always index 0. -/
def npArgmax (a : NpArray) : Option Nat := argmaxList a.flatten

/-- Modelled from the spec: utils/config.py (Cfg.CIFAR_10_CLASS_NAMES) is not
under src/.  The spec (section 8) fixes a 10-name table for the 10-class
classifier; the standard CIFAR-10 label order is used.  The claims depend only
on which index is selected, not on the particular strings. -/
def CIFAR_10_CLASS_NAMES : List String :=
  ["airplane", "automobile", "bird", "cat", "deer", "dog", "frog", "horse", "ship", "truck"]

/-- The label-selection line of src/infer_tflite.py (line 33):
Cfg.CIFAR_10_CLASS_NAMES[np.argmax(output_data[0][0])], where output_data is
the tensor read from the interpreter's primary output slot. -/
def predictedLabel (output_data : NpArray) : Option String := do
  let row ← output_data.get 0
  let cell ← row.get 0
  let i ← npArgmax cell
  CIFAR_10_CLASS_NAMES.get? i

/-- The selection the claim describes: the argmax index of the output
probability vector of the single image, i.e. of output_data[0]. -/
def specSelectedIndex (output_data : NpArray) : Option Nat := do
  let row ← output_data.get 0
  npArgmax row

/-- A concrete TFLite output tensor of shape (1, 10): one probability vector
whose maximum (91/100) sits at index 9. -/
def c1OutputData : NpArray :=
  NpArray.arr [NpArray.arr
    [NpArray.scalar (1 / 100), NpArray.scalar (1 / 100), NpArray.scalar (1 / 100),
     NpArray.scalar (1 / 100), NpArray.scalar (1 / 100), NpArray.scalar (1 / 100),
     NpArray.scalar (1 / 100), NpArray.scalar (1 / 100), NpArray.scalar (1 / 100),
     NpArray.scalar (91 / 100)]]

/-! ### Theorems -/

/-- Helper: the dimensionality-reduced inception block always builds, keeps
the batch and spatial dimensions of its input, and outputs
filters.1 + filters.2.1 + filters.2.2 + reduced_filters.2.2 channels. -/
theorem inceptionBlock_eq (X : Shape) (filters reduced_filters : Nat × Nat × Nat)
    (kernel_size : (Nat × Nat) × (Nat × Nat) × (Nat × Nat)) (pool_size : Nat × Nat) :
    inceptionBlock X filters reduced_filters kernel_size pool_size =
      some (Shape.mk X.n X.h X.w
        (filters.1 + filters.2.1 + filters.2.2 + reduced_filters.2.2)) := by
  cases X with
  | mk n h w c =>
    simp [inceptionBlock, conv2DSame, maxPool2DSame, convSameH, concatKeras,
      Shape.matchExcept, Shape.sumAxis]

/-- Claim C1 (code_bug evidence): at a concrete output tensor of shape
(1, 10) whose probability vector has its maximum at index 9, the Inference
Driver's selection CIFAR_10_CLASS_NAMES[np.argmax(output_data[0][0])] takes
the argmax of the scalar output_data[0][0] (always index 0) and reports the
first table entry, while the argmax of the output probability vector
output_data[0] is 9, whose table entry differs: the reported label is not the
argmax label the claim describes. -/
theorem C1_argmax_scalar_bug :
    predictedLabel c1OutputData = some "airplane" ∧
    specSelectedIndex c1OutputData = some 9 ∧
    CIFAR_10_CLASS_NAMES.get? 9 = some "truck" ∧
    predictedLabel c1OutputData ≠
      (specSelectedIndex c1OutputData).bind CIFAR_10_CLASS_NAMES.get? := by
  have hp : predictedLabel c1OutputData = some "airplane" := by
    norm_num [predictedLabel, c1OutputData, NpArray.get, npArgmax, NpArray.flatten,
      argmaxList, argmaxAux, CIFAR_10_CLASS_NAMES]
  have hs : specSelectedIndex c1OutputData = some 9 := by
    norm_num [specSelectedIndex, c1OutputData, NpArray.get, npArgmax, NpArray.flatten,
      argmaxList, argmaxAux]
  refine ⟨hp, hs, by decide, ?_⟩
  rw [hp, hs]
  decide

/-- Claim C2 (code_bug evidence): on a 32x32x192 feature map with the
inception-3a filter counts and the default kernel sizes, the three
valid-padding convolution branches of _naive_inception_block produce spatial
sizes 32x32, 30x30 and 28x28 and the pooling branch 32x32, so the source's
axis-0 (batch-axis) concatenation — which needs all non-batch dimensions
equal — rejects the graph: no concatenated FeatureMap exists, and in
particular none concatenated along the channel axis as the claim states. -/
theorem C2_naive_concat_axis0_fails :
    conv2DValid 64 (1, 1) (1, 1) (Shape.mk 1 32 32 192) = some (Shape.mk 1 32 32 64) ∧
    conv2DValid 128 (3, 3) (1, 1) (Shape.mk 1 32 32 192) = some (Shape.mk 1 30 30 128) ∧
    conv2DValid 32 (5, 5) (1, 1) (Shape.mk 1 32 32 192) = some (Shape.mk 1 28 28 32) ∧
    maxPool2DSame (3, 3) (1, 1) (Shape.mk 1 32 32 192) = Shape.mk 1 32 32 192 ∧
    naiveInceptionBlock (Shape.mk 1 32 32 192) (64, 128, 32)
      ((1, 1), (3, 3), (5, 5)) (3, 3) = none := by
  decide

/-- Claim C3 (counterexample): google_net returns a graph for num_classes = 0
(a non-positive class count), and rejects a 64x64 input — a spatial shape
that survives five stride-2 reductions without collapsing to zero (64/32 = 2)
— so the claim's fail-fast condition matches the code in neither direction. -/
theorem C3_counterexample :
    (google_net (224, 224) 0).isSome = true ∧
    (google_net (64, 64) 10).isSome = false := by
  decide

/-- Claim C6 (counterexample): on a 10x10x8 input (spatial size larger than
the largest kernel, 5), _naive_inception_block with the default kernel sizes
returns no FeatureMap at all — its valid-padding branches have differing
spatial sizes and the axis-0 concatenation rejects the graph — so it does not
produce an output with strictly smaller spatial dimensions as claimed. -/
theorem C6_counterexample :
    naiveInceptionBlock (Shape.mk 1 10 10 8) (4, 4, 4)
      ((1, 1), (3, 3), (5, 5)) (3, 3) = none := by
  decide

/-- Claim C6 (amended): for every input whose spatial size exceeds the
largest (5x5) kernel, inception_block preserves the spatial dimensions (same
padding on every branch), while naive_inception_block returns no feature map:
each of its valid-padding 3x3 and 5x5 convolution branches strictly shrinks
the spatial dimensions, the branches therefore disagree, and its
concatenation rejects the graph. -/
theorem C6_padding (n h w c f1 f3 f5 r3 r5 pp : Nat) (hh : 5 < h) (hw : 5 < w) :
    inceptionBlock (Shape.mk n h w c) (f1, f3, f5) (r3, r5, pp)
      ((1, 1), (3, 3), (5, 5)) (3, 3) =
      some (Shape.mk n h w (f1 + f3 + f5 + pp)) ∧
    naiveInceptionBlock (Shape.mk n h w c) (f1, f3, f5)
      ((1, 1), (3, 3), (5, 5)) (3, 3) = none := by
  refine ⟨inceptionBlock_eq _ _ _ _ _, ?_⟩
  have h1 : 1 ≤ h := by omega
  have h1w : 1 ≤ w := by omega
  have h3 : 3 ≤ h := by omega
  have h3w : 3 ≤ w := by omega
  have h5 : 5 ≤ h := by omega
  have h5w : 5 ≤ w := by omega
  simp [naiveInceptionBlock, conv2DValid, maxPool2DSame, convSameH, concatKeras,
    Shape.matchExcept, h1, h1w, h3, h3w, h5, h5w]
  omega

/-- Witness for C6_padding at a concrete input. -/
theorem C6_padding_witness :
    5 < 10 ∧
    (inceptionBlock (Shape.mk 1 10 10 3) (2, 3, 4) (5, 6, 7)
        ((1, 1), (3, 3), (5, 5)) (3, 3) =
        some (Shape.mk 1 10 10 (2 + 3 + 4 + 7)) ∧
      naiveInceptionBlock (Shape.mk 1 10 10 3) (2, 3, 4)
        ((1, 1), (3, 3), (5, 5)) (3, 3) = none) :=
  ⟨by decide, C6_padding 1 10 10 3 2 3 4 5 6 7 (by decide) (by decide)⟩

/-- Claim C7: for any positive-integer BlockSpec, the inception block's
output channel count is filters.1 + filters.2.1 + filters.2.2 plus the
pool-projection channel count reduced_filters.2.2 (and the block indeed
builds, preserving batch and spatial dimensions). -/
theorem C7_channels (n h w c f1 f3 f5 r3 r5 pp : Nat)
    (hf1 : 0 < f1) (hf3 : 0 < f3) (hf5 : 0 < f5)
    (hr3 : 0 < r3) (hr5 : 0 < r5) (hpp : 0 < pp) :
    inceptionBlock (Shape.mk n h w c) (f1, f3, f5) (r3, r5, pp)
      ((1, 1), (3, 3), (5, 5)) (3, 3) =
      some (Shape.mk n h w (f1 + f3 + f5 + pp)) :=
  inceptionBlock_eq _ _ _ _ _

/-- Witness for C7_channels at a concrete BlockSpec. -/
theorem C7_channels_witness :
    0 < 64 ∧
    inceptionBlock (Shape.mk 1 28 28 192) (64, 128, 32) (96, 16, 32)
      ((1, 1), (3, 3), (5, 5)) (3, 3) =
      some (Shape.mk 1 28 28 (64 + 128 + 32 + 32)) :=
  ⟨by decide, C7_channels 1 28 28 192 64 128 32 96 16 32 (by decide) (by decide)
    (by decide) (by decide) (by decide) (by decide)⟩

/-- Claim C3 (amended): google_net performs no parameter validation of its
own and never fails on the class count: construction succeeds exactly when
both spatial input dimensions are at least 193, independently of num_classes.
Because every strided layer uses same padding, five stride-2 reductions give
spatial size ceil(side/32), which is never zero for a positive input; the
constructor instead fails — via framework shape inference during graph
assembly, before any execution resources exist — exactly when
ceil(side/32) < 7 at the final 7x7 valid average pooling, i.e. when a side is
below 193. -/
theorem C3_construction (h w classes : Nat) :
    (google_net (h, w) classes).isSome = true ↔ (193 ≤ h ∧ 193 ≤ w) := by
  simp [google_net, inceptionBlock_eq, conv2DSame, maxPool2DSame, convSameH,
    auxiliaryClassifier, avgPool2DValid, conv2DValid, flattenUnits, dense]
  split
  · rename_i c1
    simp [c1]
    split
    · rename_i c2
      simp [c2]
      split
      · rename_i c3
        simp
        omega
      · rename_i c3
        simp
        omega
    · rename_i c2
      simp
      omega
  · rename_i c1
    simp
    omega

/-- Claim C4: for every supported model name, get_model returns a graph whose
single input node has exactly the Config-declared (H, W, 3) input shape,
returns that same Config input size to the caller, and whose output node set
matches the architecture's declared output names: exactly output,
output_aux_1, output_aux_2 for GoogLeNet and a single output node for the
single-output architectures. -/
theorem C4_get_model_shapes (model_type : String) (classes_numbers : Nat)
    (hm : model_type ∈ supportedModelTypes) :
    ∃ bm sz, get_model model_type classes_numbers = Except.ok (bm, sz) ∧
      configInputSize model_type = some sz ∧
      bm.graph.inputShape = (sz.1, sz.2, 3) ∧
      (if model_type = "GoogLeNet" then
          bm.graph.outputs.map OutputNode.name = ["output", "output_aux_1", "output_aux_2"]
        else bm.graph.outputs.length = 1) := by
  simp only [supportedModelTypes, List.mem_cons, List.not_mem_nil, or_false] at hm
  rcases hm with rfl | rfl | rfl | rfl | rfl | rfl | rfl <;>
    exact ⟨_, _, rfl, rfl, rfl, by simp [singleOutputNet]⟩

/-- Witness for C4_get_model_shapes at the GoogLeNet branch. -/
theorem C4_get_model_shapes_witness :
    "GoogLeNet" ∈ supportedModelTypes ∧
    (∃ bm sz, get_model "GoogLeNet" 10 = Except.ok (bm, sz) ∧
      configInputSize "GoogLeNet" = some sz ∧
      bm.graph.inputShape = (sz.1, sz.2, 3) ∧
      (if "GoogLeNet" = "GoogLeNet" then
          bm.graph.outputs.map OutputNode.name = ["output", "output_aux_1", "output_aux_2"]
        else bm.graph.outputs.length = 1)) :=
  ⟨by decide, C4_get_model_shapes "GoogLeNet" 10 (by decide)⟩

/-- Claim C5: the GoogLeNet branch of get_model compiles the graph with three
named categorical cross-entropy losses; the positional loss_weights list
[1, 0.3, 0.3], aligned by keras with the output order (output, output_aux_1,
output_aux_2), assigns weight 1 to output and 0.3 to each auxiliary output —
so the main weight strictly exceeds the equal auxiliary weights — and the
optimizer passed to compile is momentum-SGD with fixed learning rate 0.1 and
momentum 0.9. -/
theorem C5_googlenet_compile (classes_numbers : Nat) :
    ((get_model "GoogLeNet" classes_numbers).toOption.map (fun r =>
        (r.1.compileCfg.loss, r.1.compileCfg.optimizer,
          effectiveLossWeight r.1 "output",
          effectiveLossWeight r.1 "output_aux_1",
          effectiveLossWeight r.1 "output_aux_2"))) =
      some (LossSpec.perOutput
          [("output", Loss.categoricalCrossentropy),
            ("output_aux_1", Loss.categoricalCrossentropy),
            ("output_aux_2", Loss.categoricalCrossentropy)],
        Optimizer.sgd (1 / 10) (9 / 10) false,
        some 1, some (3 / 10), some (3 / 10)) ∧
    (3 / 10 : ℚ) < 1 := by
  exact ⟨rfl, by norm_num⟩

/-- Claim C8: for every model-name value outside the supported set, both
get_model and load_model take their final else branch and raise the
configuration error Exception immediately: no graph is returned and the error
propagates to the caller. -/
theorem C8_unknown_model (model_type : String) (classes_numbers : Nat) (model_path : String)
    (hm : model_type ∉ supportedModelTypes) :
    get_model model_type classes_numbers = Except.error "Invalid model type!" ∧
    load_model model_type model_path = Except.error "Invalid model type!" := by
  simp only [supportedModelTypes, List.mem_cons, List.not_mem_nil, or_false] at hm
  push_neg at hm
  obtain ⟨h1, h2, h3, h4, h5, h6, h7⟩ := hm
  constructor <;> simp [get_model, load_model, h1, h2, h3, h4, h5, h6, h7]

/-- Witness for C8_unknown_model at the unknown model name FooNet. -/
theorem C8_unknown_model_witness :
    "FooNet" ∉ supportedModelTypes ∧
    (get_model "FooNet" 10 = Except.error "Invalid model type!" ∧
      load_model "FooNet" "./models/model" = Except.error "Invalid model type!") :=
  ⟨by decide, C8_unknown_model "FooNet" 10 "./models/model" (by decide)⟩

/-- Claim C9: the optimizer the GoogLeNet branch of get_model actually passes
to compile is SGD with learning rate 0.1 and momentum 0.9; the first
optimizer constructed in that branch, SGD(learning_rate 0.01, momentum 0.9,
nesterov False), is a different value that is rebound before compile and
never reaches it. -/
theorem C9_optimizer_rebound (classes_numbers : Nat) :
    ((get_model "GoogLeNet" classes_numbers).toOption.map
        (fun r => r.1.compileCfg.optimizer)) =
      some (Optimizer.sgd (1 / 10) (9 / 10) false) ∧
    Optimizer.sgd (1 / 10) (9 / 10) false ≠ Optimizer.sgd (1 / 100) (9 / 10) false := by
  refine ⟨rfl, ?_⟩
  intro hcontra
  rw [Optimizer.sgd.injEq] at hcontra
  have hlr := hcontra.1
  norm_num at hlr

/-- Claim C10: for every supported model name, get_model and load_model
resolve the returned input shape from the same Config constant, so the
factory and the loader report the identical declared input resolution. -/
theorem C10_shapes_agree (model_type : String) (classes_numbers : Nat) (model_path : String)
    (hm : model_type ∈ supportedModelTypes) :
    (get_model model_type classes_numbers).toOption.map (fun r => r.2) =
      (load_model model_type model_path).toOption.map (fun r => r.2) := by
  simp only [supportedModelTypes, List.mem_cons, List.not_mem_nil, or_false] at hm
  rcases hm with rfl | rfl | rfl | rfl | rfl | rfl | rfl <;> rfl

/-- Witness for C10_shapes_agree at the GoogLeNet branch. -/
theorem C10_shapes_agree_witness :
    "GoogLeNet" ∈ supportedModelTypes ∧
    (get_model "GoogLeNet" 10).toOption.map (fun r => r.2) =
      (load_model "GoogLeNet" "./models/model").toOption.map (fun r => r.2) :=
  ⟨by decide, C10_shapes_agree "GoogLeNet" 10 "./models/model" (by decide)⟩

end CNN
